import Mathlib

/-!
Verification development for the NotebookLM UI-automation engine.

Shallow embedding of the core components found in
`src/generators/studio_automator.py` and `src/generators/notebooklm.py`:
the per-material generation workflow (StudioAutomator), the multi-strategy
element resolver, the safe-click helpers, the chat-response extraction
phase of `send_chat_message`, and the file-upload workflow.

The browser is abstracted as an explicit environment value: each embedded
function takes the data the corresponding Python method would observe from
the live DOM (whether a button was found, which elements a query matches,
the polled source counts, ...) and returns its result together with the
updated state and, where relevant, a trace of the interaction steps it
performed.  Wall-clock sleeps are dropped; time budgets are modelled as
natural-number time units.
-/

set_option autoImplicit false

namespace StudioAutomator

/-- `MaterialType` enum of `studio_automator.py` (six material kinds). -/
inductive MaterialType where
  | audio
  | video
  | mindmap
  | quiz
  | flashcards
  | infographic
deriving DecidableEq

/-- All six members, in the Python enum's declaration order
(`list(MaterialType)`). -/
def materialTypeAll : List MaterialType :=
  [.audio, .video, .mindmap, .quiz, .flashcards, .infographic]

/-- `MaterialStatus` dataclass: one record per generation attempt.
The `timestamp` field of the Python dataclass (a wall-clock ISO string)
is not modelled. -/
structure MaterialStatus where
  material_type : MaterialType
  source_name : String
  started : Bool := false
  completed : Bool := false
  error : Option String := none
deriving DecidableEq

/-- `SourceInfo` dataclass (the live checkbox handle is abstracted away;
selection success is part of the environment instead). -/
structure SourceInfo where
  name : String
  truncated_name : String
  index : Nat
deriving DecidableEq

/-- `StudioAutomator.LANGUAGE_REQUIRED`: material types whose generation
dialog contains an explicit language selection step. -/
def LANGUAGE_REQUIRED : List MaterialType := [.audio, .video, .infographic]

/-- `StudioAutomator.IMMEDIATE_GENERATION`: material types that generate
immediately, with no dialog. -/
def IMMEDIATE_GENERATION : List MaterialType := [.mindmap, .quiz, .flashcards]

/-- The interaction steps a `generate_*` method performs against the page:
clicking the material's button, invoking `_select_english_language`, and
invoking `_click_create_button`. -/
inductive GenEvent where
  | openClick
  | languageSelect
  | confirmStep
deriving DecidableEq

/-- Environment one `generate_*` call observes.

* `findRaises`  — `some msg` when the button search itself raises an
  unexpected exception (caught by the method's `except` clause);
* `buttonFound` — whether `_find_button` (including the method-specific
  fallback searches, e.g. the edit-icon search in `generate_audio`)
  ultimately returns an element;
* `languageOk`  — result of `_select_english_language` (only logged: a
  failure produces a warning and generation proceeds anyway);
* `createBtnFound` — whether `_click_create_button` finds a
  create/Erstellen button (it returns `True` exactly when it does). -/
structure GenEnv where
  findRaises : Option String := none
  buttonFound : Bool
  languageOk : Bool := true
  createBtnFound : Bool := true
deriving DecidableEq

/-- Common body of `generate_audio` / `generate_video` /
`generate_infographic`: click the customize button, run the language
selection step, then `_click_create_button`.  Returns the status returned
to the caller, the updated `generation_status` log, and the step trace.

Mirrors the Python control flow: when the button is not found the method
sets `status.error` and returns *before* the `generation_status.append`
at the end of the method; when an exception is caught the `except` clause
sets `status.error` and control falls through to the append. -/
def generateCustomize (mt : MaterialType) (btnErr createErr : String)
    (env : GenEnv) (source_name : String) (log : List MaterialStatus) :
    MaterialStatus × List MaterialStatus × List GenEvent :=
  match env.findRaises with
  | some e =>
      let st : MaterialStatus := { material_type := mt, source_name, error := some e }
      (st, log ++ [st], [])
  | none =>
      if !env.buttonFound then
        let st : MaterialStatus := { material_type := mt, source_name, error := some btnErr }
        (st, log, [])
      else
        let st : MaterialStatus :=
          if env.createBtnFound then
            { material_type := mt, source_name, started := true }
          else
            { material_type := mt, source_name, error := some createErr }
        (st, log ++ [st], [.openClick, .languageSelect, .confirmStep])

/-- Common body of `generate_mindmap` / `generate_quiz` /
`generate_flashcards`: clicking the material's button alone constitutes
"started"; no language selection, no create dialog. -/
def generateImmediate (mt : MaterialType) (btnErr : String)
    (env : GenEnv) (source_name : String) (log : List MaterialStatus) :
    MaterialStatus × List MaterialStatus × List GenEvent :=
  match env.findRaises with
  | some e =>
      let st : MaterialStatus := { material_type := mt, source_name, error := some e }
      (st, log ++ [st], [])
  | none =>
      if !env.buttonFound then
        let st : MaterialStatus := { material_type := mt, source_name, error := some btnErr }
        (st, log, [])
      else
        let st : MaterialStatus := { material_type := mt, source_name, started := true }
        (st, log ++ [st], [.openClick])

/-- `StudioAutomator.generate_audio`. -/
def generateAudio (env : GenEnv) (source_name : String) (log : List MaterialStatus) :
    MaterialStatus × List MaterialStatus × List GenEvent :=
  generateCustomize .audio "Could not find Audio button" "Could not click Create button"
    env source_name log

/-- `StudioAutomator.generate_video`. -/
def generateVideo (env : GenEnv) (source_name : String) (log : List MaterialStatus) :
    MaterialStatus × List MaterialStatus × List GenEvent :=
  generateCustomize .video "Could not find Video button" "Could not click Create button"
    env source_name log

/-- `StudioAutomator.generate_infographic`. -/
def generateInfographic (env : GenEnv) (source_name : String) (log : List MaterialStatus) :
    MaterialStatus × List MaterialStatus × List GenEvent :=
  generateCustomize .infographic "Could not find Infographic button" "Could not click Create button"
    env source_name log

/-- `StudioAutomator.generate_mindmap`. -/
def generateMindmap (env : GenEnv) (source_name : String) (log : List MaterialStatus) :
    MaterialStatus × List MaterialStatus × List GenEvent :=
  generateImmediate .mindmap "Could not find Mindmap button" env source_name log

/-- `StudioAutomator.generate_quiz`. -/
def generateQuiz (env : GenEnv) (source_name : String) (log : List MaterialStatus) :
    MaterialStatus × List MaterialStatus × List GenEvent :=
  generateImmediate .quiz "Could not find Quiz button" env source_name log

/-- `StudioAutomator.generate_flashcards`. -/
def generateFlashcards (env : GenEnv) (source_name : String) (log : List MaterialStatus) :
    MaterialStatus × List MaterialStatus × List GenEvent :=
  generateImmediate .flashcards "Could not find Flashcards button" env source_name log

/-- The per-material dispatch inside
`generate_all_materials_for_source`. -/
def generateMaterial (mt : MaterialType) (env : GenEnv) (source_name : String)
    (log : List MaterialStatus) :
    MaterialStatus × List MaterialStatus × List GenEvent :=
  match mt with
  | .audio => generateAudio env source_name log
  | .video => generateVideo env source_name log
  | .mindmap => generateMindmap env source_name log
  | .quiz => generateQuiz env source_name log
  | .flashcards => generateFlashcards env source_name log
  | .infographic => generateInfographic env source_name log

/-- The `for mat_type in materials` loop of
`generate_all_materials_for_source`, threading the `generation_status`
log and collecting the returned statuses. -/
def generateMaterialsLoop (env : MaterialType → GenEnv) (source_name : String) :
    List MaterialType → List MaterialStatus → List MaterialStatus × List MaterialStatus
  | [], log => ([], log)
  | mt :: rest, log =>
      let r := generateMaterial mt (env mt) source_name log
      let t := generateMaterialsLoop env source_name rest r.2.1
      (r.1 :: t.1, t.2)

/-- `StudioAutomator.generate_all_materials_for_source` (with
`materials=None` defaulting to all six types, in enum order). -/
def generateAllMaterialsForSource (source : SourceInfo)
    (materials : Option (List MaterialType)) (env : MaterialType → GenEnv)
    (log : List MaterialStatus) : List MaterialStatus × List MaterialStatus :=
  generateMaterialsLoop env source.truncated_name (materials.getD materialTypeAll) log

/-- ASCII lowering of a string, modelling Python `str.lower()` on the
ASCII fragment the catalog strings use. -/
def lowerStr (s : String) : String := String.mk (s.data.map Char.toLower)

/-- Python `str.strip()`: remove leading and trailing whitespace. -/
def stripStr (s : String) : String :=
  String.mk
    (((s.data.dropWhile Char.isWhitespace).reverse.dropWhile Char.isWhitespace).reverse)

/-- Python substring containment `pat in hay`, on character lists. -/
def containsSub (pat : List Char) : List Char → Bool
  | [] => pat.isEmpty
  | c :: t => ((c :: t).take pat.length == pat) || containsSub pat t

/-- Python `pattern.lower() in source.name.lower()`. -/
def patternMatches (pat name : String) : Bool :=
  containsSub (lowerStr pat).data (lowerStr name).data

/-- Environment a `process_all_sources` run observes per source:
whether `select_source` succeeds for it, and the generation environment
of each of its material attempts. -/
structure ProcEnv where
  selectOk : SourceInfo → Bool
  genEnv : SourceInfo → MaterialType → GenEnv

/-- Lookup in the result dict (first entry with the given key). -/
def dictLookup {α : Type} (m : List (String × α)) (k : String) : Option α :=
  match m with
  | [] => none
  | p :: rest => if p.1 == k then some p.2 else dictLookup rest k

/-- Python dict assignment `m[k] = v`: replace the entry when the key is
present, append a new entry otherwise (insertion order preserved). -/
def dictInsert {α : Type} (m : List (String × α)) (k : String) (v : α) :
    List (String × α) :=
  if m.any (fun p => p.1 == k) then
    m.map (fun p => if p.1 == k then (k, v) else p)
  else
    m ++ [(k, v)]

/-- The `for i, source in enumerate(sources)` loop of
`process_all_sources`: deselect all, select the source (on failure
`continue` — no result entry), generate the materials, store the result
list under the source's full name. -/
def processLoop (env : ProcEnv) (materials : Option (List MaterialType)) :
    List SourceInfo → List (String × List MaterialStatus) → List MaterialStatus →
    List (String × List MaterialStatus) × List MaterialStatus
  | [], acc, log => (acc, log)
  | s :: rest, acc, log =>
      if env.selectOk s then
        let r := generateAllMaterialsForSource s materials (env.genEnv s) log
        processLoop env materials rest (dictInsert acc s.name r.1) r.2
      else
        processLoop env materials rest acc log

/-- `StudioAutomator.process_all_sources`: list the sources (given here
as the `sources` argument), optionally filter them by substring patterns,
then run the per-source loop.  Returns the result dict and the final
`generation_status` log. -/
def processAllSources (sources : List SourceInfo)
    (source_patterns : Option (List String)) (materials : Option (List MaterialType))
    (env : ProcEnv) (log : List MaterialStatus) :
    List (String × List MaterialStatus) × List MaterialStatus :=
  if sources.isEmpty then ([], log)
  else
    let filtered :=
      match source_patterns with
      | none => sources
      | some pats =>
          if pats.isEmpty then sources
          else sources.filter (fun s => pats.any (fun p => patternMatches p s.name))
    processLoop env materials filtered [] log

/-- `StudioAutomator._click_safe` environment: `elementGiven` is the
`if not element` guard; `jsOk` — the scroll-into-view + JS click pair
raises no exception; `nativeOk` — the fallback `element.click()` raises
no exception. -/
structure ClickEnv where
  elementGiven : Bool
  jsOk : Bool
  nativeOk : Bool
deriving DecidableEq

/-- Possible outcomes of a click helper, distinguishing between a value
returned to the caller and an exception propagated out. -/
inductive ClickResult where
  | clicked
  | returnedFalse
  | raised (msg : String)
deriving DecidableEq

/-- `StudioAutomator._click_safe`: JS click inside `try`, native click in
the `except` handler, `return False` after a logged error when both
fail.  Every exception is caught; the helper never propagates one. -/
def clickSafe (env : ClickEnv) : ClickResult :=
  if !env.elementGiven then .returnedFalse
  else if env.jsOk then .clicked
  else if env.nativeOk then .clicked
  else .returnedFalse

end StudioAutomator

namespace NotebookLMClient

open StudioAutomator (ClickEnv ClickResult)

/-- `NotebookLMClient._click_element_safe`: identical structure to
`StudioAutomator._click_safe` (JS click with scroll-into-view, native
click fallback, logged error and `return False` when both raise). -/
def clickElementSafe (env : ClickEnv) : ClickResult :=
  if !env.elementGiven then .returnedFalse
  else if env.jsOk then .clicked
  else if env.nativeOk then .clicked
  else .returnedFalse

/-- An element of the abstract DOM: an identifier and its
`is_displayed()` value. -/
structure DomElement where
  eid : Nat
  displayed : Bool
deriving DecidableEq

/-- What one locator strategy of a catalog entry observes on the page:
`matchList` is the list of elements its query matches in document order
(`driver.find_element`, and hence `EC.presence_of_element_located`,
yields the head), `hitTime` the time units until the wait's polling
first sees a match. -/
structure StrategyResult where
  matchList : List DomElement
  hitTime : Nat
deriving DecidableEq

/-- `time_per_strategy = max(1, timeout // len(strategies))` of
`_find_element_multi_strategy` (Python `//` on non-negative ints is
`Nat` division). -/
def timePerStrategy (timeout n : Nat) : Nat := max 1 (timeout / n)

/-- The `for by_type, selector in strategies` loop of
`_find_element_multi_strategy`.  Each strategy runs a
`WebDriverWait(driver, alloc).until(presence_of_element_located(...))`:

* no match within the allotment — `TimeoutException` after spending the
  full allotment, continue with the next strategy;
* a present match — the *first* matched element is returned after
  `hitTime`; it is returned by the resolver only if displayed, otherwise
  the loop continues with the next strategy.

Returns the found element (if any) and the total time spent. -/
def findStrategiesLoop (alloc : Nat) :
    List StrategyResult → Option DomElement × Nat
  | [] => (none, 0)
  | s :: rest =>
      match s.matchList with
      | [] =>
          let r := findStrategiesLoop alloc rest
          (r.1, alloc + r.2)
      | e :: _ =>
          if alloc < s.hitTime then
            let r := findStrategiesLoop alloc rest
            (r.1, alloc + r.2)
          else if e.displayed then
            (some e, s.hitTime)
          else
            let r := findStrategiesLoop alloc rest
            (r.1, s.hitTime + r.2)

/-- `NotebookLMClient._find_element_multi_strategy`: dead driver or an
entry with no strategies yields `None` immediately; otherwise the time
budget is split evenly across strategies and they are tried in order. -/
def findElementMultiStrategy (driverAlive : Bool)
    (strategies : List StrategyResult) (timeout : Nat) :
    Option DomElement × Nat :=
  if !driverAlive then (none, 0)
  else if strategies.isEmpty then (none, 0)
  else findStrategiesLoop (timePerStrategy timeout strategies.length) strategies

/-- A candidate text-bearing node of the response search: its
`is_displayed()` value and its raw `elem.text`. -/
structure Candidate where
  displayed : Bool
  text : String
deriving DecidableEq

open StudioAutomator (lowerStr containsSub)

/-- `MIN_RESPONSE_LENGTH` of `send_chat_message`. -/
def MIN_RESPONSE_LENGTH : Nat := 50

/-- `user_message_lower = message.strip().lower()[:50]`. -/
def userMessageLower (message : String) : List Char :=
  ((lowerStr (StudioAutomator.stripStr message)).data).take 50

/-- `skip_words` of the primary response-selector scan. -/
def skipWordsPrimary : List String :=
  ["quellen", "source", "subscriptions", "erklärvideo",
   "play_arrow", "more_vert", "sticky_note", "notiz"]

/-- `skip_words` of the last-resort div scan. -/
def skipWordsLastResort : List String :=
  ["quellen", "source", "arrow", "menu", "settings",
   "subscriptions", "erklärvideo", "play_arrow",
   "more_vert", "sticky_note", "notiz hinzufügen",
   "im web nach", "text eingeben"]

/-- The acceptance test applied to one stripped candidate text `t`:
`text_len >= MIN_RESPONSE_LENGTH and text_len < maxLen`, the first 50
lowered characters differ from `user_message_lower`, and no skip word
occurs in `text.lower()[:100]`. -/
def acceptCandidate (maxLen : Nat) (skip : List String) (uml : List Char)
    (t : String) : Bool :=
  decide (MIN_RESPONSE_LENGTH ≤ t.length) && decide (t.length < maxLen) &&
    !((lowerStr t).data.take 50 == uml) &&
    !(skip.any (fun w => containsSub w.data ((lowerStr t).data.take 100)))

/-- One scan over the candidates a selector yields: keep the displayed
ones, walk them most-recent-first (`reversed`), strip each `elem.text`,
and return the first text passing the acceptance test. -/
def scanCandidates (accept : String → Bool) (cands : List Candidate) :
    Option String :=
  ((cands.filter (fun c => c.displayed)).reverse).findSome? (fun c =>
    if accept (StudioAutomator.stripStr c.text) then some (StudioAutomator.stripStr c.text)
    else none)

/-- The response phase of `NotebookLMClient.send_chat_message`
(the `extractLatestAnswer` contract of the design):

* `selectorResults` — for each entry of `response_selectors`, the
  elements that selector finds inside the chat panel, in document order;
* `lastResortDivs` — the divs of the chat panel used by the last-resort
  scan.

The primary scan uses the bound `text_len < 10000` and the primary skip
words; the last-resort scan uses `text_len < 8000` and its longer skip
word list.  Returns the first surviving candidate text, `none` when
every candidate is filtered out. -/
def extractLatestAnswer (message : String)
    (selectorResults : List (List Candidate)) (lastResortDivs : List Candidate) :
    Option String :=
  match selectorResults.findSome?
      (scanCandidates (acceptCandidate 10000 skipWordsPrimary (userMessageLower message))) with
  | some t => some t
  | none =>
      scanCandidates (acceptCandidate 8000 skipWordsLastResort (userMessageLower message))
        lastResortDivs

/-- One iteration's observations of the upload completion poll:
the source count seen by `get_sources_count`, whether any
loading/progress indicator is visible, and the count seen at the inner
re-check performed when no indicator is visible. -/
structure PollObs where
  count : Nat
  loadingVisible : Bool
  recheckCount : Nat
deriving DecidableEq

/-- The `while time.time() - start_time < timeout` completion loop of
`upload_file_source`: success as soon as a positive source count is
seen (directly, or at the re-check after the loading indicators have
disappeared); `false` when the observation window is exhausted. -/
def uploadPollLoop : List PollObs → Bool
  | [] => false
  | o :: rest =>
      if 0 < o.count then true
      else if !o.loadingVisible && 0 < o.recheckCount then true
      else uploadPollLoop rest

/-- The wait loop of `_manual_upload_fallback`: polls the source count
over its own window and succeeds when the count exceeds the initial
count. -/
def manualPollLoop (initial : Nat) : List Nat → Bool
  | [] => false
  | c :: rest => if initial < c then true else manualPollLoop initial rest

/-- The steps `upload_file_source` performs against the browser session.
`livenessProbe` is the `is_driver_alive` check (a read of
`driver.current_url`); everything else touches the page DOM. -/
inductive UploadEvent where
  | livenessProbe
  | findAddSourceBtn
  | clickAddSource
  | findUploadBtn
  | clickUpload
  | findFileInput
  | makeVisible
  | sendPath
  | pollCheck
  | manualFallbackWait
deriving DecidableEq

/-- Environment an `upload_file_source` call observes. -/
structure UploadEnv where
  driverAlive : Bool
  fileExists : Bool
  addBtnFound : Bool := true
  uploadBtnFound : Bool := true
  fileInputFound : Bool := true
  sendPathOk : Bool := true
  pollObs : List PollObs := []
  finalCount : Nat := 0
  manualInitialCount : Nat := 0
  manualObs : List Nat := []
deriving DecidableEq

/-- `NotebookLMClient._manual_upload_fallback`: record the initial
source count, then poll for an increase over a longer window. -/
def manualUploadFallback (env : UploadEnv) : Bool × List UploadEvent :=
  (manualPollLoop env.manualInitialCount env.manualObs, [.manualFallbackWait])

/-- `NotebookLMClient.upload_file_source`.  Mirrors the Python control
flow: liveness probe; existence check of the (absolutised) file path
*before* any page interaction; add-source click; optional upload-button
click; file-input search — on miss, `_manual_upload_fallback`; make the
input visible and `send_keys` the path — on failure,
`_manual_upload_fallback`; then the completion poll — on timeout, one
final count check and `return False` (no fallback on this path).
Returns the boolean result and the step trace. -/
def uploadFileSource (env : UploadEnv) : Bool × List UploadEvent :=
  if !env.driverAlive then (false, [.livenessProbe])
  else if !env.fileExists then (false, [.livenessProbe])
  else
    let evAdd : List UploadEvent := [.livenessProbe, .findAddSourceBtn]
    if !env.addBtnFound then (false, evAdd)
    else
      let evUp := evAdd ++ [.clickAddSource, .findUploadBtn] ++
        (if env.uploadBtnFound then [UploadEvent.clickUpload] else [])
      let evFi := evUp ++ [UploadEvent.findFileInput]
      if !env.fileInputFound then
        let m := manualUploadFallback env
        (m.1, evFi ++ m.2)
      else
        let evSend := evFi ++ [UploadEvent.makeVisible, UploadEvent.sendPath]
        if !env.sendPathOk then
          let m := manualUploadFallback env
          (m.1, evSend ++ m.2)
        else
          let evPoll := evSend ++ env.pollObs.map (fun _ => UploadEvent.pollCheck)
          if uploadPollLoop env.pollObs then (true, evPoll)
          else if 0 < env.finalCount then (true, evPoll ++ [.pollCheck])
          else (false, evPoll ++ [.pollCheck])

/-- Concrete upload environment: the hidden file input is missing and the
manual window sees the source count rise from zero to one. -/
def fallbackWitnessEnv : UploadEnv :=
  { driverAlive := true
    fileExists := true
    addBtnFound := true
    fileInputFound := false
    manualInitialCount := 0
    manualObs := [0, 1] }

/-- Concrete upload environment: path injection succeeds but the source
count stays zero for the whole completion-poll window, while the manual
window would have seen the count reach one. -/
def timeoutRunEnv : UploadEnv :=
  { driverAlive := true
    fileExists := true
    addBtnFound := true
    uploadBtnFound := true
    fileInputFound := true
    sendPathOk := true
    pollObs := [⟨0, true, 0⟩, ⟨0, false, 0⟩]
    finalCount := 0
    manualInitialCount := 0
    manualObs := [1] }

end NotebookLMClient

namespace StudioAutomator

/-! Development lemmas about the generation loop and the result dict. -/

theorem generateMaterialsLoop_length (env : MaterialType → GenEnv) (name : String) :
    ∀ (mats : List MaterialType) (log : List MaterialStatus),
      (generateMaterialsLoop env name mats log).1.length = mats.length := by
  intro mats
  induction mats with
  | nil => intro log; rfl
  | cons m ms ih => intro log; simp [generateMaterialsLoop, ih]

theorem dictLookup_eq_none_iff {α : Type} (m : List (String × α)) (k : String) :
    dictLookup m k = none ↔ m.any (fun p => p.1 == k) = false := by
  induction m with
  | nil => simp [dictLookup]
  | cons p rest ih =>
      by_cases h : p.1 == k <;> simp [dictLookup, h, ih]

theorem dictInsert_of_lookup_none {α : Type} (m : List (String × α)) (k : String)
    (v : α) (h : dictLookup m k = none) : dictInsert m k v = m ++ [(k, v)] := by
  unfold dictInsert
  rw [(dictLookup_eq_none_iff m k).1 h]
  simp

theorem dictLookup_append_of_none {α : Type} (m₁ m₂ : List (String × α)) (k : String)
    (h : dictLookup m₁ k = none) : dictLookup (m₁ ++ m₂) k = dictLookup m₂ k := by
  induction m₁ with
  | nil => simp
  | cons p rest ih =>
      by_cases hp : p.1 == k
      · simp [dictLookup, hp] at h
      · simp only [dictLookup, hp] at h
        simpa [dictLookup, hp] using ih h

theorem dictLookup_insert_self_of_none {α : Type} (m : List (String × α)) (k : String)
    (v : α) (h : dictLookup m k = none) :
    dictLookup (dictInsert m k v) k = some v := by
  rw [dictInsert_of_lookup_none m k v h, dictLookup_append_of_none m _ k h]
  simp [dictLookup]

theorem dictLookup_map_update_ne {α : Type} (k k' : String) (v : α)
    (h : k' ≠ k) :
    ∀ m : List (String × α),
      dictLookup (m.map (fun p => if p.1 == k then (k, v) else p)) k' = dictLookup m k'
  | [] => rfl
  | p :: rest => by
      have hrec := dictLookup_map_update_ne k k' v h rest
      by_cases hp : p.1 == k
      · have hpk : p.1 = k := by simpa using hp
        have hkk' : (k == k') = false := by
          simp only [beq_eq_false_iff_ne, ne_eq]
          exact fun hh => h hh.symm
        have hpk' : (p.1 == k') = false := by rw [hpk]; exact hkk'
        simp only [List.map_cons, dictLookup, hp, if_true, hkk', hpk',
          Bool.false_eq_true, if_false]
        exact hrec
      · by_cases hp' : p.1 == k'
        · simp [dictLookup, hp, hp']
        · simp only [List.map_cons, dictLookup, hp, Bool.false_eq_true, if_false, hp']
          exact hrec

theorem dictLookup_insert_ne {α : Type} (m : List (String × α)) (k k' : String)
    (v : α) (h : k' ≠ k) :
    dictLookup (dictInsert m k v) k' = dictLookup m k' := by
  unfold dictInsert
  by_cases hany : m.any (fun p => p.1 == k)
  · simpa [hany] using dictLookup_map_update_ne k k' v h m
  · simp only [hany, Bool.false_eq_true, if_false]
    induction m with
    | nil =>
        have : (k == k') = false := by
          simp [beq_eq_false_iff_ne]; exact fun hh => h hh.symm
        simp [dictLookup, this]
    | cons p rest ih =>
        simp only [List.any_cons, Bool.or_eq_true, not_or] at hany
        by_cases hp : p.1 == k'
        · simp [dictLookup, hp]
        · simp only [List.cons_append, dictLookup, hp, Bool.false_eq_true, if_false]
          exact ih hany.2

theorem dictInsert_length_of_none {α : Type} (m : List (String × α)) (k : String)
    (v : α) (h : dictLookup m k = none) :
    (dictInsert m k v).length = m.length + 1 := by
  rw [dictInsert_of_lookup_none m k v h]
  simp

/-- Maintains, across the per-source loop, that fresh source names produce
fresh result-dict entries holding one status per requested material type,
and that entries already present are preserved. -/
theorem processLoop_complete (env : ProcEnv) (materials : Option (List MaterialType)) :
    ∀ (srcs : List SourceInfo) (acc : List (String × List MaterialStatus))
      (log : List MaterialStatus),
      (srcs.map (fun s => s.name)).Nodup →
      (∀ s ∈ srcs, env.selectOk s = true) →
      (∀ s ∈ srcs, dictLookup acc s.name = none) →
      ((processLoop env materials srcs acc log).1.length = acc.length + srcs.length)
      ∧ (∀ s ∈ srcs, ∃ rs,
          dictLookup (processLoop env materials srcs acc log).1 s.name = some rs ∧
          rs.length = (materials.getD materialTypeAll).length)
      ∧ (∀ (k : String) (v : List MaterialStatus), dictLookup acc k = some v →
          dictLookup (processLoop env materials srcs acc log).1 k = some v) := by
  intro srcs
  induction srcs with
  | nil =>
      intro acc log _ _ _
      refine ⟨by simp [processLoop], by simp, ?_⟩
      intro k v hk
      simpa [processLoop] using hk
  | cons s rest ih =>
      intro acc log hnodup hsel hfresh
      have hsels : env.selectOk s = true := hsel s (by simp)
      have hfs : dictLookup acc s.name = none := hfresh s (by simp)
      simp only [List.map_cons, List.nodup_cons] at hnodup
      obtain ⟨hnotin, hnodup'⟩ := hnodup
      -- abbreviations for the generated results and the updated dict
      set r := generateAllMaterialsForSource s materials (env.genEnv s) log with hr
      set acc' := dictInsert acc s.name r.1 with hacc'
      have hstep : processLoop env materials (s :: rest) acc log
      = processLoop env materials rest acc' r.2 := by
        simp [processLoop, hsels, hr, hacc']
      have hne : ∀ s' ∈ rest, s'.name ≠ s.name := by
        intro s' hs' heq
        exact hnotin (heq ▸ List.mem_map_of_mem (fun t => t.name) hs')
      have hfresh' : ∀ s' ∈ rest, dictLookup acc' s'.name = none := by
        intro s' hs'
        rw [hacc', dictLookup_insert_ne acc s.name s'.name r.1 (hne s' hs')]
        exact hfresh s' (by simp [hs'])
      have hsel' : ∀ s' ∈ rest, env.selectOk s' = true := by
        intro s' hs'; exact hsel s' (by simp [hs'])
      obtain ⟨ihlen, ihmem, ihpres⟩ := ih acc' r.2 hnodup' hsel' hfresh'
      refine ⟨?_, ?_, ?_⟩
      · rw [hstep, ihlen, hacc', dictInsert_length_of_none acc s.name r.1 hfs]
        simp [List.length_cons]
        omega
      · intro s' hs'
        rcases List.mem_cons.1 hs' with heq | hmem
        · subst heq
          refine ⟨r.1, ?_, ?_⟩
          · rw [hstep]
            exact ihpres s'.name r.1
              (by rw [hacc']; exact dictLookup_insert_self_of_none acc s'.name r.1 hfs)
          · rw [hr]
            exact generateMaterialsLoop_length (env.genEnv s') s'.truncated_name _ log
        · obtain ⟨rs, hrs, hlen⟩ := ihmem s' hmem
          exact ⟨rs, by rw [hstep]; exact hrs, hlen⟩
      · intro k v hk
        have hkne : k ≠ s.name := by
          intro heq; rw [heq, hfs] at hk; cases hk
        rw [hstep]
        exact ihpres k v (by rw [hacc', dictLookup_insert_ne acc s.name k r.1 hkne]; exact hk)

/-- If no source carrying name `k` is ever successfully selected, the loop
never creates an entry for `k`. -/
theorem processLoop_lookup_none (env : ProcEnv) (materials : Option (List MaterialType)) :
    ∀ (srcs : List SourceInfo) (acc : List (String × List MaterialStatus))
      (log : List MaterialStatus) (k : String),
      dictLookup acc k = none →
      (∀ s ∈ srcs, s.name = k → env.selectOk s = false) →
      dictLookup (processLoop env materials srcs acc log).1 k = none := by
  intro srcs
  induction srcs with
  | nil => intro acc log k hacc _; simpa [processLoop] using hacc
  | cons s rest ih =>
      intro acc log k hacc hno
      by_cases hsel : env.selectOk s = true
      · have hne : k ≠ s.name := by
          intro heq
          have := hno s (by simp) heq.symm
          rw [hsel] at this; cases this
        simp only [processLoop, hsel, if_true]
        exact ih _ _ k
          (by rw [dictLookup_insert_ne acc s.name k _ hne]; exact hacc)
          (fun s' hs' => hno s' (by simp [hs']))
      · simp only [processLoop, Bool.not_eq_true] at hsel ⊢
        rw [hsel]
        simp only [Bool.false_eq_true, if_false]
        exact ih acc log k hacc (fun s' hs' => hno s' (by simp [hs']))

/-- C1 (amended): a per-material generation call appends exactly one
`MaterialStatus` to `generation_status` whenever the material's button is
found — regardless of whether language selection or the create click
succeed afterwards — and likewise when the button search raises an
exception that the method's handler catches.  (When the button search
completes without finding a button, the method returns its status record
early, before the append: nothing is added to the run log in that case.) -/
theorem generateMaterial_appends_one_status (mt : MaterialType) (env : GenEnv)
    (name : String) (log : List MaterialStatus)
    (h : env.findRaises.isSome = true ∨ env.buttonFound = true) :
    ((generateMaterial mt env name log).2.1).length = log.length + 1 := by
  rcases hr : env.findRaises with _ | e
  · have hb : env.buttonFound = true := by
      rcases h with h | h
      · rw [hr] at h; cases h
      · exact h
    cases mt <;>
      simp [generateMaterial, generateAudio, generateVideo, generateMindmap,
        generateQuiz, generateFlashcards, generateInfographic,
        generateCustomize, generateImmediate, hr, hb]
  · cases mt <;>
      simp [generateMaterial, generateAudio, generateVideo, generateMindmap,
        generateQuiz, generateFlashcards, generateInfographic,
        generateCustomize, generateImmediate, hr]

/-- Witness for the amended C1 theorem at a concrete input. -/
theorem generateMaterial_appends_one_status_witness :
    ((generateMaterial MaterialType.audio
        { findRaises := none, buttonFound := true } "Lecture1"
        ([] : List MaterialStatus)).2.1).length = 0 + 1 :=
  generateMaterial_appends_one_status MaterialType.audio
    { findRaises := none, buttonFound := true } "Lecture1" [] (Or.inr rfl)

/-- Counterexample to C1 as stated: when the Audio button cannot be found
(`_find_button` returns `None` without raising), `generate_audio` returns
an error-bearing status to its caller but appends nothing to
`generation_status` — the run log stays empty, not one entry long. -/
theorem generateAudio_button_missing_appends_nothing :
    (generateAudio { findRaises := none, buttonFound := false } "Lecture1"
        ([] : List MaterialStatus)).2.1 = ([] : List MaterialStatus) ∧
    (generateAudio { findRaises := none, buttonFound := false } "Lecture1"
        ([] : List MaterialStatus)).1.error = some "Could not find Audio button" :=
  ⟨rfl, rfl⟩

/-- C2: material types in `LANGUAGE_REQUIRED` run the language-selection
step after clicking the type's control and before the create/confirm
step (the step trace is exactly open–language–confirm whenever the button
is found); material types in `IMMEDIATE_GENERATION` never invoke the
language-selection step; the two subsets are disjoint and together cover
all six material types. -/
theorem language_step_policy (mt : MaterialType) (env : GenEnv) (name : String)
    (log : List MaterialStatus) :
    (mt ∈ LANGUAGE_REQUIRED → env.findRaises = none → env.buttonFound = true →
      (generateMaterial mt env name log).2.2 =
        [GenEvent.openClick, GenEvent.languageSelect, GenEvent.confirmStep])
    ∧ (mt ∈ IMMEDIATE_GENERATION →
        GenEvent.languageSelect ∉ (generateMaterial mt env name log).2.2)
    ∧ (∀ m : MaterialType, ¬(m ∈ LANGUAGE_REQUIRED ∧ m ∈ IMMEDIATE_GENERATION))
    ∧ (∀ m : MaterialType, m ∈ LANGUAGE_REQUIRED ∨ m ∈ IMMEDIATE_GENERATION) := by
  refine ⟨?_, ?_, by intro m; cases m <;> decide, by intro m; cases m <;> decide⟩
  · intro hmem hr hb
    cases mt <;>
      first
        | exact absurd hmem (by decide)
        | simp [generateMaterial, generateAudio, generateVideo, generateInfographic,
            generateCustomize, hr, hb]
  · intro hmem
    cases mt <;>
      first
        | exact absurd hmem (by decide)
        | (rcases hr : env.findRaises with _ | e <;>
            cases hb : env.buttonFound <;>
            simp [generateMaterial, generateMindmap, generateQuiz, generateFlashcards,
              generateImmediate, hr, hb])

/-- Witness for the C2 theorem at concrete inputs: audio (language
required) yields the open–language–confirm trace; mindmap (immediate)
yields a trace without the language step. -/
theorem language_step_policy_witness :
    (generateMaterial MaterialType.audio { findRaises := none, buttonFound := true }
        "Lecture1" ([] : List MaterialStatus)).2.2 =
      [GenEvent.openClick, GenEvent.languageSelect, GenEvent.confirmStep] ∧
    GenEvent.languageSelect ∉
      (generateMaterial MaterialType.mindmap { findRaises := none, buttonFound := true }
        "Lecture1" ([] : List MaterialStatus)).2.2 :=
  ⟨(language_step_policy MaterialType.audio { findRaises := none, buttonFound := true }
      "Lecture1" []).1 (by decide) rfl rfl,
   (language_step_policy MaterialType.mindmap { findRaises := none, buttonFound := true }
      "Lecture1" []).2.1 (by decide)⟩

/-- C8: with source selection succeeding for every listed source (and
distinct source names, as the result dict is keyed by name), the
per-source loop reaches every source: the result map has one entry per
source, and each entry holds one `MaterialStatus` per requested material
type — a failed generation attempt for one source does not abort the
batch or skip the attempts of later sources. -/
theorem processAllSources_advances (sources : List SourceInfo)
    (materials : Option (List MaterialType)) (env : ProcEnv) (log : List MaterialStatus)
    (hnodup : (sources.map (fun s => s.name)).Nodup)
    (hsel : ∀ s ∈ sources, env.selectOk s = true) :
    (processAllSources sources none materials env log).1.length = sources.length ∧
    ∀ s ∈ sources, ∃ rs,
      dictLookup (processAllSources sources none materials env log).1 s.name = some rs ∧
      rs.length = (materials.getD materialTypeAll).length := by
  unfold processAllSources
  by_cases hemp : sources.isEmpty
  · rw [List.isEmpty_iff] at hemp
    subst hemp
    simp
  · simp only [hemp, Bool.false_eq_true, if_false]
    obtain ⟨hlen, hmem, _⟩ := processLoop_complete env materials sources [] log hnodup hsel
      (fun s _ => rfl)
    exact ⟨by simpa using hlen, hmem⟩

/-- Witness for the C8 theorem: three sources, one requested material
(quiz), an environment in which the second source's only generation
attempt fails (its button is never found) — the result map still has
three entries and the third source's entry is present. -/
theorem processAllSources_advances_witness :
    (processAllSources
        [⟨"Lecture1", "Lecture1", 0⟩, ⟨"Lecture2", "Lecture2", 1⟩, ⟨"Lecture3", "Lecture3", 2⟩]
        none (some [MaterialType.quiz])
        { selectOk := fun _ => true,
          genEnv := fun s _ =>
            if s.name == "Lecture2" then { findRaises := none, buttonFound := false }
            else { findRaises := none, buttonFound := true } }
        []).1.length = 3 ∧
    (dictLookup (processAllSources
        [⟨"Lecture1", "Lecture1", 0⟩, ⟨"Lecture2", "Lecture2", 1⟩, ⟨"Lecture3", "Lecture3", 2⟩]
        none (some [MaterialType.quiz])
        { selectOk := fun _ => true,
          genEnv := fun s _ =>
            if s.name == "Lecture2" then { findRaises := none, buttonFound := false }
            else { findRaises := none, buttonFound := true } }
        []).1 "Lecture3").isSome = true := by
  have h := processAllSources_advances
    [⟨"Lecture1", "Lecture1", 0⟩, ⟨"Lecture2", "Lecture2", 1⟩, ⟨"Lecture3", "Lecture3", 2⟩]
    (some [MaterialType.quiz])
    { selectOk := fun _ => true,
      genEnv := fun s _ =>
        if s.name == "Lecture2" then { findRaises := none, buttonFound := false }
        else { findRaises := none, buttonFound := true } }
    [] (by decide) (fun s _ => rfl)
  refine ⟨by simpa using h.1, ?_⟩
  obtain ⟨rs, hrs, _⟩ := h.2 ⟨"Lecture3", "Lecture3", 2⟩ (by simp)
  rw [hrs]
  rfl

/-- C9: a listed source whose `select_source` call fails is skipped by
`continue`: provided no other listed source carries the same name, the
returned result map has no entry at all under that source's name (rather
than an entry of failed statuses). -/
theorem processAllSources_skips_unselected (sources : List SourceInfo)
    (materials : Option (List MaterialType)) (env : ProcEnv) (log : List MaterialStatus)
    (s : SourceInfo) (hs : s ∈ sources) (_hfail : env.selectOk s = false)
    (hname : ∀ s' ∈ sources, s'.name = s.name → env.selectOk s' = false) :
    dictLookup (processAllSources sources none materials env log).1 s.name = none := by
  unfold processAllSources
  by_cases hemp : sources.isEmpty
  · rw [List.isEmpty_iff] at hemp
    subst hemp
    cases hs
  · simp only [hemp, Bool.false_eq_true, if_false]
    exact processLoop_lookup_none env materials sources [] log s.name rfl hname

/-- Witness for the C9 theorem: a two-source run where the second
source's selection fails — the result map has an entry for the first
source and none for the second. -/
theorem processAllSources_skips_unselected_witness :
    dictLookup (processAllSources
        [⟨"Lecture1", "Lecture1", 0⟩, ⟨"Lecture2", "Lecture2", 1⟩]
        none (some [MaterialType.quiz])
        { selectOk := fun s => !(s.name == "Lecture2"),
          genEnv := fun _ _ => { findRaises := none, buttonFound := true } }
        []).1 "Lecture2" = none :=
  processAllSources_skips_unselected
    [⟨"Lecture1", "Lecture1", 0⟩, ⟨"Lecture2", "Lecture2", 1⟩]
    (some [MaterialType.quiz])
    { selectOk := fun s => !(s.name == "Lecture2"),
      genEnv := fun _ _ => { findRaises := none, buttonFound := true } }
    [] ⟨"Lecture2", "Lecture2", 1⟩ (by simp) rfl
    (by
      intro s' hs' hn
      simp only [List.mem_cons, List.mem_singleton] at hs'
      rcases hs' with h | h | h
      · rw [h] at hn; simp at hn
      · rw [h]; rfl
      · cases h)

/-- C5 (amended): a click helper that exhausts its fallbacks (JS click,
then native click) logs an error and returns `False` to its caller — and
in no case does either helper propagate an exception: there is no typed
`InteractionFailure` in the codebase, so callers must detect click
failure from the boolean result. -/
theorem clickSafe_failure_returns_false (env : ClickEnv) (msg : String) :
    clickSafe env ≠ ClickResult.raised msg ∧
    NotebookLMClient.clickElementSafe env ≠ ClickResult.raised msg ∧
    (env.elementGiven = true → env.jsOk = false → env.nativeOk = false →
      clickSafe env = ClickResult.returnedFalse ∧
      NotebookLMClient.clickElementSafe env = ClickResult.returnedFalse) := by
  obtain ⟨g, j, n⟩ := env
  cases g <;> cases j <;> cases n <;>
    simp [clickSafe, NotebookLMClient.clickElementSafe]

/-- Witness for the amended C5 theorem at a concrete input. -/
theorem clickSafe_failure_returns_false_witness :
    clickSafe ⟨true, false, false⟩ ≠ ClickResult.raised "InteractionFailure" ∧
    clickSafe ⟨true, false, false⟩ = ClickResult.returnedFalse ∧
    NotebookLMClient.clickElementSafe ⟨true, false, false⟩ = ClickResult.returnedFalse :=
  ⟨(clickSafe_failure_returns_false ⟨true, false, false⟩ "InteractionFailure").1,
   ((clickSafe_failure_returns_false ⟨true, false, false⟩ "InteractionFailure").2.2
      rfl rfl rfl).1,
   ((clickSafe_failure_returns_false ⟨true, false, false⟩ "InteractionFailure").2.2
      rfl rfl rfl).2⟩

/-- Counterexample to C5 as stated: an element whose JS click and native
click both fail makes both click helpers return the plain negative result
`returnedFalse`; no exception of any kind leaves the helper (the `raised`
outcome is never produced), so the claimed typed `InteractionFailure` is
never raised. -/
theorem clickSafe_exhaustion_counterexample :
    NotebookLMClient.clickElementSafe ⟨true, false, false⟩ = ClickResult.returnedFalse ∧
    clickSafe ⟨true, false, false⟩ = ClickResult.returnedFalse ∧
    ClickResult.returnedFalse ≠ ClickResult.raised "InteractionFailure" :=
  ⟨rfl, rfl, by decide⟩

end StudioAutomator

namespace NotebookLMClient

/-- Any element the strategy loop returns was displayed. -/
theorem findStrategiesLoop_some_displayed (alloc : Nat) :
    ∀ (l : List StrategyResult) (e : DomElement),
      (findStrategiesLoop alloc l).1 = some e → e.displayed = true := by
  intro l
  induction l with
  | nil => intro e h; simp [findStrategiesLoop] at h
  | cons s rest ih =>
      intro e h
      rcases hm : s.matchList with _ | ⟨a, as⟩ <;>
        simp only [findStrategiesLoop, hm] at h
      · exact ih e h
      · by_cases hlt : alloc < s.hitTime
        · simp only [hlt, if_true] at h
          exact ih e h
        · simp only [hlt, if_false] at h
          by_cases hd : a.displayed
          · simp only [hd, if_true] at h
            cases h
            exact hd
          · simp only [hd, Bool.false_eq_true, if_false] at h
            exact ih e h

/-- Each strategy costs at most the allotment. -/
theorem findStrategiesLoop_time_le (alloc : Nat) :
    ∀ l : List StrategyResult,
      (findStrategiesLoop alloc l).2 ≤ l.length * alloc := by
  intro l
  induction l with
  | nil => simp [findStrategiesLoop]
  | cons s rest ih =>
      rcases hm : s.matchList with _ | ⟨a, as⟩ <;>
        simp only [findStrategiesLoop, hm, List.length_cons]
      · calc alloc + (findStrategiesLoop alloc rest).2
            ≤ alloc + rest.length * alloc := Nat.add_le_add_left ih alloc
          _ ≤ (rest.length + 1) * alloc := by rw [Nat.succ_mul]; omega
      · by_cases hlt : alloc < s.hitTime
        · simp only [hlt, if_true]
          calc alloc + (findStrategiesLoop alloc rest).2
              ≤ alloc + rest.length * alloc := Nat.add_le_add_left ih alloc
            _ ≤ (rest.length + 1) * alloc := by rw [Nat.succ_mul]; omega
        · simp only [hlt, if_false]
          have hle : s.hitTime ≤ alloc := Nat.le_of_not_lt hlt
          by_cases hd : a.displayed
          · simp only [hd, if_true]
            calc s.hitTime ≤ alloc := hle
              _ ≤ (rest.length + 1) * alloc := by rw [Nat.succ_mul]; omega
          · simp only [hd, Bool.false_eq_true, if_false]
            calc s.hitTime + (findStrategiesLoop alloc rest).2
                ≤ alloc + rest.length * alloc := Nat.add_le_add hle ih
              _ ≤ (rest.length + 1) * alloc := by rw [Nat.succ_mul]; omega

/-- C3: for a catalog entry with at least one strategy, the resolver
allots each strategy exactly `max 1 (timeout / N)` time units (`//` is
floor division, with a floor of one unit so no strategy is starved), and
the total time it can spend — in particular before returning `None` —
is at most `timeout` plus one extra unit per strategy. -/
theorem resolver_time_budget (alive : Bool) (strategies : List StrategyResult)
    (timeout : Nat) (h : strategies ≠ []) :
    timePerStrategy timeout strategies.length = max 1 (timeout / strategies.length) ∧
    (findElementMultiStrategy alive strategies timeout).2 ≤ timeout + strategies.length := by
  refine ⟨rfl, ?_⟩
  unfold findElementMultiStrategy
  cases alive with
  | false => simp
  | true =>
      have hemp : strategies.isEmpty = false := by
        cases strategies with
        | nil => exact absurd rfl h
        | cons a l => rfl
      simp only [Bool.not_true, Bool.false_eq_true, if_false, hemp]
      have h1 := findStrategiesLoop_time_le (timePerStrategy timeout strategies.length)
        strategies
      have h2 : strategies.length * timePerStrategy timeout strategies.length ≤
          timeout + strategies.length := by
        unfold timePerStrategy
        rcases Nat.eq_zero_or_pos (timeout / strategies.length) with hz | hp
        · rw [hz]
          simp
        · rw [Nat.max_eq_right hp]
          calc strategies.length * (timeout / strategies.length)
              = timeout / strategies.length * strategies.length := Nat.mul_comm _ _
            _ ≤ timeout := Nat.div_mul_le_self timeout strategies.length
            _ ≤ timeout + strategies.length := Nat.le_add_right _ _
      calc (findStrategiesLoop (timePerStrategy timeout strategies.length) strategies).2
          ≤ strategies.length * timePerStrategy timeout strategies.length := h1
        _ ≤ timeout + strategies.length := h2

/-- Witness for the C3 theorem at a concrete input: six strategies, a
budget of ten time units. -/
theorem resolver_time_budget_witness :
    timePerStrategy 10 6 = max 1 (10 / 6) ∧
    (findElementMultiStrategy true
        [⟨[], 0⟩, ⟨[], 0⟩, ⟨[], 0⟩, ⟨[], 0⟩, ⟨[], 0⟩, ⟨[], 0⟩] 10).2 ≤ 10 + 6 := by
  have h := resolver_time_budget true
    [⟨[], 0⟩, ⟨[], 0⟩, ⟨[], 0⟩, ⟨[], 0⟩, ⟨[], 0⟩, ⟨[], 0⟩] 10 (by decide)
  exact ⟨h.1, by simpa using h.2⟩

/-- C7 (amended): the resolver returns only elements displayed at
resolution time; but within one strategy only the first element the
query matches is ever examined — when that first candidate is present
and invisible, the whole strategy is treated as a miss and resolution
moves to the next strategy (returning `None` when none is left), rather
than moving to the strategy's next candidate. -/
theorem resolver_visibility (alive : Bool) (strategies : List StrategyResult)
    (timeout alloc : Nat) (e a : DomElement) (s : StrategyResult)
    (rest : List StrategyResult) (grab : List DomElement) :
    ((findElementMultiStrategy alive strategies timeout).1 = some e →
      e.displayed = true) ∧
    (s.matchList = a :: grab → a.displayed = false →
      (findStrategiesLoop alloc (s :: rest)).1 = (findStrategiesLoop alloc rest).1) := by
  constructor
  · intro h
    unfold findElementMultiStrategy at h
    cases alive with
    | false => simp at h
    | true =>
        by_cases hemp : strategies.isEmpty
        · simp [hemp] at h
        · simp only [Bool.not_true, Bool.false_eq_true, if_false, hemp] at h
          exact findStrategiesLoop_some_displayed _ strategies e h
  · intro hm hd
    simp only [findStrategiesLoop, hm]
    by_cases hlt : alloc < s.hitTime
    · simp [hlt]
    · simp [hlt, hd]

/-- Witness for the amended C7 theorem at concrete inputs. -/
theorem resolver_visibility_witness :
    ((findElementMultiStrategy true [⟨[⟨1, true⟩], 0⟩] 10).1 = some ⟨1, true⟩ →
      (DomElement.mk 1 true).displayed = true) ∧
    (findStrategiesLoop 1 [⟨[⟨0, false⟩, ⟨1, true⟩], 0⟩]).1 =
      (findStrategiesLoop 1 []).1 :=
  ⟨(resolver_visibility true [⟨[⟨1, true⟩], 0⟩] 10 1 ⟨1, true⟩ ⟨0, false⟩
      ⟨[⟨0, false⟩, ⟨1, true⟩], 0⟩ [] [⟨1, true⟩]).1,
   (resolver_visibility true [⟨[⟨1, true⟩], 0⟩] 10 1 ⟨1, true⟩ ⟨0, false⟩
      ⟨[⟨0, false⟩, ⟨1, true⟩], 0⟩ [] [⟨1, true⟩]).2 rfl rfl⟩

/-- Counterexample to C7 as stated: a catalog entry with one strategy
whose query matches an invisible element first and a visible element
second.  The claim says `resolve` skips the invisible candidate and
returns the visible one; the code hands only the first present match to
the visibility check, so the strategy misses and the resolver returns
`None`. -/
theorem resolver_invisible_first_counterexample :
    (findElementMultiStrategy true [⟨[⟨0, false⟩, ⟨1, true⟩], 0⟩] 10).1 = none ∧
    ([⟨0, false⟩, ⟨1, true⟩] : List DomElement).any (fun d => d.displayed) = true :=
  ⟨rfl, rfl⟩

theorem findSome_eq_some_exists {α β : Type} (f : α → Option β) :
    ∀ (l : List α) (b : β), l.findSome? f = some b → ∃ a, a ∈ l ∧ f a = some b := by
  intro l
  induction l with
  | nil => intro b h; simp at h
  | cons a t ih =>
      intro b h
      rw [List.findSome?_cons] at h
      rcases hfa : f a with _ | v
      · rw [hfa] at h
        obtain ⟨c, hc, hfc⟩ := ih b h
        exact ⟨c, by simp [hc], hfc⟩
      · rw [hfa] at h
        exact ⟨a, by simp, by rw [hfa]; exact h⟩

/-- A text the candidate scan returns passed the acceptance test. -/
theorem scanCandidates_sound (accept : String → Bool) (cands : List Candidate)
    (t : String) (h : scanCandidates accept cands = some t) : accept t = true := by
  unfold scanCandidates at h
  obtain ⟨c, _, hc⟩ := findSome_eq_some_exists _ _ t h
  by_cases ha : accept (StudioAutomator.stripStr c.text)
  · simp only [ha, if_true] at hc
    cases hc
    exact ha
  · simp only [ha, Bool.false_eq_true, if_false] at hc
    cases hc

/-- C4 (amended): every string the chat-answer extraction returns has
length at least `MIN_RESPONSE_LENGTH` and below 10000 (the primary
scan's bound; the last-resort scan is stricter at 8000), and its first
50 lowered characters differ from the first 50 lowered characters of the
*whitespace-stripped* sent message (the code compares against
`message.strip().lower()[:50]`). -/
theorem extractLatestAnswer_constraints (message : String)
    (selectorResults : List (List Candidate)) (lastResortDivs : List Candidate)
    (t : String) (h : extractLatestAnswer message selectorResults lastResortDivs = some t) :
    MIN_RESPONSE_LENGTH ≤ t.length ∧ t.length < 10000 ∧
    (StudioAutomator.lowerStr t).data.take 50 ≠
      (StudioAutomator.lowerStr (StudioAutomator.stripStr message)).data.take 50 := by
  unfold extractLatestAnswer at h
  have hofaccept : ∀ maxLen skip, maxLen ≤ 10000 →
      acceptCandidate maxLen skip (userMessageLower message) t = true →
      MIN_RESPONSE_LENGTH ≤ t.length ∧ t.length < 10000 ∧
      (StudioAutomator.lowerStr t).data.take 50 ≠
        (StudioAutomator.lowerStr (StudioAutomator.stripStr message)).data.take 50 := by
    intro maxLen skip hmax hacc
    unfold acceptCandidate at hacc
    simp only [Bool.and_eq_true, decide_eq_true_eq, Bool.not_eq_true',
      beq_eq_false_iff_ne, ne_eq] at hacc
    exact ⟨hacc.1.1.1, lt_of_lt_of_le hacc.1.1.2 hmax, hacc.1.2⟩
  rcases hfs : selectorResults.findSome?
      (scanCandidates (acceptCandidate 10000 skipWordsPrimary (userMessageLower message)))
    with _ | u
  · rw [hfs] at h
    exact hofaccept 8000 skipWordsLastResort (by omega)
      (scanCandidates_sound _ lastResortDivs t h)
  · rw [hfs] at h
    injection h with h2
    subst h2
    obtain ⟨cands, _, hc⟩ := findSome_eq_some_exists _ selectorResults _ hfs
    exact hofaccept 10000 skipWordsPrimary (by omega) (scanCandidates_sound _ cands _ hc)

/-- Witness for the amended C4 theorem: a sixty-character candidate
answer to the message "Hello" is returned and satisfies all three
constraints. -/
theorem extractLatestAnswer_constraints_witness :
    MIN_RESPONSE_LENGTH ≤
      ("xxxxxxxxxxxxxxxxxxxxxxxxxxxxxxxxxxxxxxxxxxxxxxxxxxxxxxxxxxxx" : String).length ∧
    ("xxxxxxxxxxxxxxxxxxxxxxxxxxxxxxxxxxxxxxxxxxxxxxxxxxxxxxxxxxxx" : String).length < 10000 ∧
    (StudioAutomator.lowerStr "xxxxxxxxxxxxxxxxxxxxxxxxxxxxxxxxxxxxxxxxxxxxxxxxxxxxxxxxxxxx").data.take 50 ≠
      (StudioAutomator.lowerStr (StudioAutomator.stripStr "Hello")).data.take 50 :=
  extractLatestAnswer_constraints "Hello"
    [[{ displayed := true, text := "xxxxxxxxxxxxxxxxxxxxxxxxxxxxxxxxxxxxxxxxxxxxxxxxxxxxxxxxxxxx" }]]
    [] "xxxxxxxxxxxxxxxxxxxxxxxxxxxxxxxxxxxxxxxxxxxxxxxxxxxxxxxxxxxx" (by rfl)

/-- Counterexample to C4 as stated: the sent message is thirty letters
`a` followed by twenty-five spaces; the displayed candidate is thirty
letters `a`, twenty spaces, ten letters `b`.  The code accepts the
candidate (its lowered 50-prefix differs from the lowered 50-prefix of
the *stripped* message, which is just the thirty `a`s) — yet the
returned answer's first fifty characters are case-insensitively equal to
the first fifty characters of the message as sent. -/
theorem extractLatestAnswer_echo_counterexample :
    extractLatestAnswer
        (String.mk (List.replicate 30 'a' ++ List.replicate 25 ' '))
        [[{ displayed := true,
            text := String.mk (List.replicate 30 'a' ++ List.replicate 20 ' '
              ++ List.replicate 10 'b') }]] [] =
      some (String.mk (List.replicate 30 'a' ++ List.replicate 20 ' '
        ++ List.replicate 10 'b')) ∧
    (StudioAutomator.lowerStr (String.mk (List.replicate 30 'a' ++ List.replicate 20 ' '
        ++ List.replicate 10 'b'))).data.take 50 =
      (StudioAutomator.lowerStr (String.mk (List.replicate 30 'a'
        ++ List.replicate 25 ' '))).data.take 50 := by
  constructor
  · rfl
  · rfl

/-- C10: `upload_file_source` returns `False` before touching the page
whenever the resolved file path does not exist on disk: the only step
preceding the existence check is the driver liveness probe (a read of
`driver.current_url`), so the trace holds no DOM interaction at all. -/
theorem uploadFileSource_missing_file (env : UploadEnv)
    (h : env.fileExists = false) :
    uploadFileSource env = (false, [UploadEvent.livenessProbe]) := by
  unfold uploadFileSource
  cases hd : env.driverAlive <;> simp [hd, h]

/-- Witness for the C10 theorem at a concrete input. -/
theorem uploadFileSource_missing_file_witness :
    uploadFileSource { driverAlive := true, fileExists := false } =
      (false, [UploadEvent.livenessProbe]) :=
  uploadFileSource_missing_file { driverAlive := true, fileExists := false } rfl

/-- C6 (amended): the manual-completion wait is `upload_file_source`'s
fallback for the cases where the hidden file input cannot be located or
injecting the path into it fails; when the path is injected and the
completion poll (which succeeds as soon as the source count is positive)
exhausts its window, the operation performs one final count check and
returns `False` *without* invoking the manual-completion wait.  The
manual wait itself polls the same source-count indicator over its own
window and succeeds exactly when the count exceeds the initial count. -/
theorem uploadFileSource_fallback_policy (env : UploadEnv)
    (halive : env.driverAlive = true) (hex : env.fileExists = true)
    (hadd : env.addBtnFound = true) :
    (env.fileInputFound = false →
      (uploadFileSource env).1 = (manualUploadFallback env).1 ∧
      UploadEvent.manualFallbackWait ∈ (uploadFileSource env).2) ∧
    (env.fileInputFound = true → env.sendPathOk = false →
      (uploadFileSource env).1 = (manualUploadFallback env).1 ∧
      UploadEvent.manualFallbackWait ∈ (uploadFileSource env).2) ∧
    (env.fileInputFound = true → env.sendPathOk = true →
      uploadPollLoop env.pollObs = false → env.finalCount = 0 →
      (uploadFileSource env).1 = false ∧
      UploadEvent.manualFallbackWait ∉ (uploadFileSource env).2) ∧
    (∀ (initial : Nat) (obs : List Nat),
      manualPollLoop initial obs = true ↔ ∃ c ∈ obs, initial < c) := by
  refine ⟨?_, ?_, ?_, ?_⟩
  · intro hfi
    unfold uploadFileSource
    simp [halive, hex, hadd, hfi, manualUploadFallback]
  · intro hfi hsp
    unfold uploadFileSource
    simp [halive, hex, hadd, hfi, hsp, manualUploadFallback]
  · intro hfi hsp hpoll hfin
    constructor <;>
      cases hub : env.uploadBtnFound <;>
        simp [uploadFileSource, halive, hex, hadd, hfi, hsp, hpoll, hfin, hub]
  · intro initial obs
    induction obs with
    | nil => simp [manualPollLoop]
    | cons c rest ih =>
        by_cases hc : initial < c <;> simp [manualPollLoop, hc, ih]

/-- Witness for the amended C6 theorem at a concrete input: the file
input is missing and the manual poll sees the count rise from zero to
one, so the upload succeeds through the fallback. -/
theorem uploadFileSource_fallback_policy_witness :
    (uploadFileSource fallbackWitnessEnv).1 = (manualUploadFallback fallbackWitnessEnv).1 ∧
    UploadEvent.manualFallbackWait ∈ (uploadFileSource fallbackWitnessEnv).2 :=
  (uploadFileSource_fallback_policy fallbackWitnessEnv rfl rfl rfl).1 rfl

/-- Counterexample to C6 as stated: the path is injected successfully,
the completion poll times out with the source count still zero, and the
operation returns `False` with no manual-completion wait in its trace —
even though the configured manual window (`manualObs := [1]`) would have
seen the source appear and returned `True`. -/
theorem uploadFileSource_timeout_counterexample :
    (uploadFileSource timeoutRunEnv).1 = false ∧
    UploadEvent.manualFallbackWait ∉ (uploadFileSource timeoutRunEnv).2 ∧
    (manualUploadFallback timeoutRunEnv).1 = true := by
  refine ⟨rfl, ?_, rfl⟩
  decide

end NotebookLMClient
